import Mathlib

/-!
Verification model of the codecrafters-redis-rust server core.

Each definition is a shallow embedding of a function of the Rust source
(file and line references in the doc comments).  Byte strings are modelled
as Lean String / List Char; machine integers as Nat / Int with explicit
bounds where the source relies on them; fallible code returns Option or
Except.  Wall-clock time (std::time::SystemTime) is modelled as a Nat of
milliseconds since the epoch, passed explicitly.
-/

set_option maxRecDepth 8192

namespace Redis

/-- Constant CRLF from src/protocol_constants.rs line 4. -/
def CRLF : String := "\r\n"

/-- Byte size of a character in UTF-8, mirroring how Rust str::len counts
bytes (used where the source calls .len() on strings). -/
def charUtf8Size (c : Char) : Nat :=
  if c.toNat < 0x80 then 1
  else if c.toNat < 0x800 then 2
  else if c.toNat < 0x10000 then 3
  else 4

/-- UTF-8 byte length of a list of characters: model of Rust str::len. -/
def lineByteLen (cs : List Char) : Nat := (cs.map charUtf8Size).sum

/-- UTF-8 byte length of a string: model of Rust String::len / str::len. -/
def strByteLen (s : String) : Nat := lineByteLen s.data

/-- Byte view of a string as written by write_all(s.as_bytes()).  The
protocol text emitted by the server is ASCII, for which the UTF-8 bytes
are exactly the character code points. -/
def asciiBytes (s : String) : List Nat := s.data.map Char.toNat

/-- Drop one trailing carriage return, as Rust str::lines does on each
line terminated by a newline. -/
def stripCR (l : List Char) : List Char :=
  if l.getLast? = some '\r' then l.dropLast else l

/-- Accumulator worker for splitLines.  acc holds the current line in
reverse.  A final line without a terminating newline is yielded without
stripping a carriage return, matching Rust str::lines. -/
def splitLinesAux (acc : List Char) : List Char → List (List Char)
  | [] => if acc.isEmpty then [] else [acc.reverse]
  | c :: cs =>
    if c = '\n' then stripCR acc.reverse :: splitLinesAux [] cs
    else splitLinesAux (c :: acc) cs

/-- Model of Rust str::lines as used by parse_message
(src/command_parser.rs line 6): split at newline characters, strip one
trailing carriage return from each terminated line, and do not yield a
final empty line after a trailing newline. -/
def splitLines (cs : List Char) : List (List Char) := splitLinesAux [] cs

/-- Decimal digits to a natural number (Rust digit accumulation in
usize::from_str). -/
def digitsToNat? (cs : List Char) : Option Nat :=
  if cs.isEmpty then none
  else if cs.all Char.isDigit then
    some (cs.foldl (fun n c => n * 10 + (c.toNat - 48)) 0)
  else none

/-- Model of Rust str::parse::<usize>: an optional leading plus sign,
then one or more ASCII digits, rejecting values that overflow u64. -/
def parseUsize? (cs : List Char) : Option Nat :=
  let digits := match cs with
    | '+' :: rest => digitsToNat? rest
    | _ => digitsToNat? cs
  digits.bind (fun n => if n < 2 ^ 64 then some n else none)

/-- Model of Rust str::parse::<i64>: optional sign, digits, two-sided
range check. -/
def parseI64? (cs : List Char) : Option Int :=
  match cs with
  | '-' :: rest =>
    (digitsToNat? rest).bind
      (fun n => if n ≤ 2 ^ 63 then some (-(n : Int)) else none)
  | '+' :: rest =>
    (digitsToNat? rest).bind
      (fun n => if n < 2 ^ 63 then some ((n : Int)) else none)
  | _ =>
    (digitsToNat? cs).bind
      (fun n => if n < 2 ^ 63 then some ((n : Int)) else none)

/-- ConfigCommand from src/command.rs lines 24-26. -/
inductive ConfigCommand where
  | GET : String → ConfigCommand
deriving DecidableEq, Repr

/-- Command from src/command.rs lines 12-22.  The SET fields follow the
source struct order: key, value, px, ex (both options in milliseconds /
seconds as u64, modelled as Nat). -/
inductive Command where
  | PING
  | ECHO : String → Command
  | GET : String → Command
  | SET : String → String → Option Nat → Option Nat → Command
  | CONFIG : ConfigCommand → Command
  | KEYS : String → Command
  | INFO : String → Command
  | REPLCONF : List String → Command
  | PSYNC : List String → Command
deriving DecidableEq, Repr

/-- Error message constants from src/protocol_constants.rs lines 33-53. -/
def EMPTY_MESSAGE_ERROR : String := "Empty message"

def INVALID_ARRAY_SIZE_ERROR : String := "Invalid array size"

def MISSING_BULK_LENGTH_ERROR : String := "Missing bulk length"

def INVALID_BULK_STRING_FORMAT_ERROR : String := "Invalid bulk string format"

def INVALID_BULK_LENGTH_ERROR : String := "Invalid bulk length"

def MISSING_BULK_STRING_ERROR : String := "Missing bulk string"

def BULK_STRING_LENGTH_MISMATCH_ERROR : String := "Bulk string length mismatch"

def EMPTY_COMMAND_ERROR : String := "Empty command"

def UNSUPPORTED_PROTOCOL_ERROR : String := "Unsupported protocol type"

def UNKNOWN_COMMAND_ERROR : String := "Unknown command"

def ARGUMENT_ERROR : String := "Argument Error"

def SET_ARGUMENTS_ERROR : String := "SET requires at least key and value arguments"

def UNKNOWN_OPTION_ERROR : String := "Unknown option"

def INVALID_OPTION_VALUE_ERROR : String := "Invalid option value"

def OPTION_ARGUMENT_MISSING_ERROR : String := "Option requires an argument"

def CONFIG_ARGUMENTS_ERROR : String := "CONFIG subcommand requires at least 2 arguments"

def UNSUPPORTED_CONFIG_SUBCOMMAND_ERROR : String := "Unsupported CONFIG subcommand"

/-- ASCII uppercase of one character.  Rust str::to_uppercase is full
Unicode; the parser only compares its result against the ASCII words
PX, EX and GET, for which the ASCII mapping coincides. -/
def asciiUpperChar (c : Char) : Char :=
  if 97 ≤ c.toNat ∧ c.toNat ≤ 122 then Char.ofNat (c.toNat - 32) else c

/-- Model of Rust str::to_uppercase as used by parse_set and
parse_config. -/
def rustUppercase (s : String) : String := ⟨s.data.map asciiUpperChar⟩

/-- One iteration of the bulk-string reading loop of parse_message
(src/command_parser.rs lines 13-25): take a length line that must start
with a dollar sign, parse the length, take the payload line and require
its byte length to equal the declared length.  Error payloads are the
ArgumentError::General strings of the source. -/
def readOneBulk : List (List Char) →
    Except String (String × List (List Char))
  | [] => .error MISSING_BULK_LENGTH_ERROR
  | lenLine :: ls1 =>
    if lenLine.head? = some '$' then
      match parseUsize? lenLine.tail with
      | none => .error INVALID_BULK_LENGTH_ERROR
      | some bulkLen =>
        match ls1 with
        | [] => .error MISSING_BULK_STRING_ERROR
        | strLine :: ls2 =>
          if lineByteLen strLine = bulkLen then
            .ok ((⟨strLine⟩ : String), ls2)
          else .error BULK_STRING_LENGTH_MISMATCH_ERROR
    else .error INVALID_BULK_STRING_FORMAT_ERROR

/-- The full argument loop: num_args iterations of the body above,
accumulating the decoded bulk strings in order. -/
def readBulks : Nat → List (List Char) → Except String (List String)
  | 0, _ => .ok []
  | Nat.succ n, ls =>
    match readOneBulk ls with
    | .error e => .error e
    | .ok (s, ls2) =>
      match readBulks n ls2 with
      | .ok args => .ok (s :: args)
      | .error e => .error e

/-- check_args_len from src/command_parser.rs lines 44-50. -/
def checkArgsLen (args : List String) (expected : Nat) (name : String) :
    Except String Unit :=
  if args.length ≠ expected then
    .error (ARGUMENT_ERROR ++ ": " ++ name ++ " " ++ toString (expected - 1))
  else .ok ()

/-- parse_ping from src/command_parser.rs lines 52-55. -/
def parsePing (args : List String) : Except String Command :=
  match checkArgsLen args 1 "PING" with
  | .error e => .error e
  | .ok _ => .ok Command.PING

/-- parse_echo from src/command_parser.rs lines 57-60; args[1] is the
element at index 1, total length checked to be 2. -/
def parseEcho (args : List String) : Except String Command :=
  match checkArgsLen args 2 "ECHO" with
  | .error e => .error e
  | .ok _ => .ok (Command.ECHO (args.getD 1 ""))

/-- parse_get from src/command_parser.rs lines 62-65. -/
def parseGet (args : List String) : Except String Command :=
  match checkArgsLen args 2 "GET" with
  | .error e => .error e
  | .ok _ => .ok (Command.GET (args.getD 1 ""))

/-- The option loop of parse_set (src/command_parser.rs lines 77-90)
together with parse_option_value (lines 95-101): options are taken two
by two from index 3 on, matched case-insensitively against PX and EX,
and later occurrences overwrite earlier ones. -/
def parseSetOptions : List String → Option Nat → Option Nat →
    Except String (Option Nat × Option Nat)
  | [], px, ex => .ok (px, ex)
  | opt :: rest, px, ex =>
    if rustUppercase opt = "PX" then
      match rest with
      | [] => .error (OPTION_ARGUMENT_MISSING_ERROR ++ ": PX")
      | v :: rest2 =>
        match parseUsize? v.data with
        | some n => parseSetOptions rest2 (some n) ex
        | none => .error (INVALID_OPTION_VALUE_ERROR ++ ": PX")
    else if rustUppercase opt = "EX" then
      match rest with
      | [] => .error (OPTION_ARGUMENT_MISSING_ERROR ++ ": EX")
      | v :: rest2 =>
        match parseUsize? v.data with
        | some n => parseSetOptions rest2 px (some n)
        | none => .error (INVALID_OPTION_VALUE_ERROR ++ ": EX")
    else .error (UNKNOWN_OPTION_ERROR ++ ": \x27" ++ opt ++ "\x27")

/-- parse_set from src/command_parser.rs lines 67-93. -/
def parseSet (args : List String) : Except String Command :=
  match args with
  | _ :: key :: value :: rest =>
    match parseSetOptions rest none none with
    | .ok pe => .ok (Command.SET key value pe.1 pe.2)
    | .error e => .error e
  | _ => .error SET_ARGUMENTS_ERROR

/-- parse_config from src/command_parser.rs lines 103-112. -/
def parseConfig (args : List String) : Except String Command :=
  match args with
  | _ :: sub :: key :: _ =>
    if rustUppercase sub = "GET" then .ok (Command.CONFIG (ConfigCommand.GET key))
    else .error UNSUPPORTED_CONFIG_SUBCOMMAND_ERROR
  | _ => .error CONFIG_ARGUMENTS_ERROR

/-- The command dispatch of parse_message over a list of lines
(src/command_parser.rs lines 5-42).  Only PING, ECHO, GET, SET and
CONFIG appear in the match on the command name; every other name falls
into the unknown-command arm. -/
def parseMessageLines : List (List Char) → Except String Command
  | [] => .error EMPTY_MESSAGE_ERROR
  | firstLine :: rest =>
    if firstLine.head? = some '*' then
      match parseUsize? firstLine.tail with
      | none => .error INVALID_ARRAY_SIZE_ERROR
      | some numArgs =>
        match readBulks numArgs rest with
        | .error e => .error e
        | .ok args =>
          match args.head? with
          | some name =>
            if name = "PING" then parsePing args
            else if name = "ECHO" then parseEcho args
            else if name = "GET" then parseGet args
            else if name = "SET" then parseSet args
            else if name = "CONFIG" then parseConfig args
            else .error (UNKNOWN_COMMAND_ERROR ++ ": " ++ name)
          | none => .error EMPTY_COMMAND_ERROR
    else .error UNSUPPORTED_PROTOCOL_ERROR

/-- parse_message from src/command_parser.rs lines 5-42, taking the raw
message text of one read. -/
def parseMessage (msg : String) : Except String Command :=
  parseMessageLines (splitLines msg.data)

/-- The per-connection reader body of the accept task
(src/main.rs lines 111-128): each chunk returned by one socket read is
parsed on its own; a parse failure only logs and continues, a success
publishes exactly one CommandReceived event. -/
def processChunk (chunk : String) : List Command :=
  match parseMessage chunk with
  | .ok c => [c]
  | .error _ => []

/-- The stream of commands the reader publishes for a given sequence of
read chunks (src/main.rs lines 111-136). -/
def processChunks (chunks : List String) : List Command :=
  (chunks.map processChunk).flatten

/-- ValueEntry from src/value_entry.rs lines 4-8, with SystemTime modelled
as milliseconds since the epoch. -/
structure ValueEntry where
  value : String
  expiration : Option Nat
deriving DecidableEq, Repr

/-- ValueEntry::new_relative from src/value_entry.rs lines 17-20: the
expiration is now plus the given duration. -/
def ValueEntry.newRelative (now : Nat) (value : String)
    (durationMs : Option Nat) : ValueEntry :=
  { value, expiration := durationMs.map (fun ms => now + ms) }

/-- ValueEntry::new_absolute from src/value_entry.rs lines 12-15. -/
def ValueEntry.newAbsolute (value : String)
    (expirationMs : Option Nat) : ValueEntry :=
  { value, expiration := expirationMs }

/-- ValueEntry::is_expired from src/value_entry.rs lines 22-28: strictly
later than the expiration instant. -/
def ValueEntry.isExpired (now : Nat) (e : ValueEntry) : Bool :=
  match e.expiration with
  | some t => decide (t < now)
  | none => false

/-- The keyspace HashMap<String, ValueEntry> modelled as an association
list with at most one binding per key (insertion replaces). -/
abbrev Db := List (String × ValueEntry)

/-- HashMap::get on the keyspace model. -/
def dbGet (db : Db) (k : String) : Option ValueEntry :=
  match db with
  | [] => none
  | (k2, v) :: rest => if k2 = k then some v else dbGet rest k

/-- HashMap::insert on the keyspace model: unconditional overwrite. -/
def dbInsert (db : Db) (k : String) (v : ValueEntry) : Db :=
  (k, v) :: (db : List (String × ValueEntry)).filter (fun p => p.1 ≠ k)

/-- The null bulk string reply, format of src/command.rs lines 137 and
142. -/
def nullBulk : String := "$" ++ "-1" ++ CRLF

/-- The bulk string reply built by execute_get
(src/command.rs line 139): dollar, byte length, CRLF, value, CRLF. -/
def bulkOf (v : String) : String :=
  "$" ++ toString (strByteLen v) ++ CRLF ++ v ++ CRLF

/-- Command::execute_get from src/command.rs lines 133-144, with the
read-time clock passed explicitly. -/
def executeGet (now : Nat) (key : String) (db : Db) : String :=
  match dbGet db key with
  | some e => if e.isExpired now then nullBulk else bulkOf e.value
  | none => nullBulk

/-- The expiration computed by execute_set (src/command.rs lines
147-151): PX milliseconds win over EX seconds. -/
def setExpirationMs (ex px : Option Nat) : Option Nat :=
  match px, ex with
  | some ms, _ => some ms
  | none, some s => some (s * 1000)
  | none, none => none

/-- Command::execute_set from src/command.rs lines 146-155: insert a
relative entry and answer +OK. -/
def executeSetDb (now : Nat) (key value : String) (ex px : Option Nat)
    (db : Db) : Db × String :=
  (dbInsert db key (ValueEntry.newRelative now value (setExpirationMs ex px)),
   "+" ++ "OK" ++ CRLF)

/-- The RESP message re-encoded for replicas by the SET arm of
Command::execute (src/command.rs lines 106-112): always three elements,
the PX and EX options of the executed command are not re-encoded. -/
def replicatedSetCommand (key value : String) : String :=
  "*3\r\n$3\r\nSET\r\n$" ++ toString (strByteLen key) ++ "\r\n" ++ key ++
  "\r\n$" ++ toString (strByteLen value) ++ "\r\n" ++ value ++ "\r\n"

/-- CommandResponse from src/command.rs lines 28-32; the Bulk payload is
a raw byte vector. -/
inductive CommandResponse where
  | Simple : String → CommandResponse
  | Bulk : List Nat → CommandResponse
  | EndStream
deriving DecidableEq, Repr

/-- Result of the SET arm of Command::execute (src/command.rs lines
95-118): the updated keyspace, the responses for the client, and the
message of the PropagateSlave event if one was published.  The channel
send is modelled as succeeding. -/
structure SetOutcome where
  db : Db
  responses : List CommandResponse
  propagated : Option String
deriving Repr

/-- The SET arm of Command::execute (src/command.rs lines 95-118): on
role slave the write happens with no propagation; on any other role the
re-encoded three-element SET message is published to replicas. -/
def executeSetArm (now : Nat) (role : String) (key value : String)
    (ex px : Option Nat) (db : Db) : SetOutcome :=
  let r := executeSetDb now key value ex px db
  if role = "slave" then
    { db := r.1, responses := [CommandResponse.Simple r.2], propagated := none }
  else
    { db := r.1, responses := [CommandResponse.Simple r.2],
      propagated := some (replicatedSetCommand key value) }

/-- Command::execute_replconf from src/command.rs lines 190-205.  The
result is none where the source would panic indexing an empty args
vector; otherwise it is the response text paired with whether a
SlaveConnected event was published (publishing modelled as succeeding). -/
def executeReplconf (args : List String) : Option (String × Bool) :=
  match args.head? with
  | none => none
  | some a0 =>
    if a0 = "listening-port" then some ("+" ++ "OK" ++ CRLF, true)
    else if a0 = "capa" then some ("+" ++ "OK" ++ CRLF, false)
    else some ("-ERR Invalid REPLCONF arguments" ++ CRLF, false)

/-- EMPTY_RDB_FILE from src/command.rs lines 226-229: the bytes REDIS0009
followed by the EOF opcode. -/
def EMPTY_RDB_FILE : List Nat :=
  [0x52, 0x45, 0x44, 0x49, 0x53, 0x30, 0x30, 0x30, 0x39, 0xFF]

/-- Command::execute_psync from src/command.rs lines 207-241: the offset
argument is args[1] parsed as i64, defaulting to -1 when absent or
unparseable; the primary offset is the hardcoded 0. -/
def executePsync (masterReplId : String) (args : List String) :
    List CommandResponse :=
  let requestedOffset : Int :=
    ((args.get? 1).bind (fun s => parseI64? s.data)).getD (-1)
  let masterOffset : Int := 0
  if requestedOffset = -1 ∨ requestedOffset < masterOffset then
    [CommandResponse.Simple
      ("+" ++ "FULLRESYNC " ++ masterReplId ++ " " ++ toString masterOffset ++ CRLF),
     CommandResponse.Bulk EMPTY_RDB_FILE]
  else
    [CommandResponse.Simple ("+" ++ "CONTINUE" ++ CRLF)]

/-- The response writer of Command::handle_command (src/command.rs
lines 44-58) as the byte sequence put on the wire: a Simple response is
written verbatim, a Bulk response is written as a dollar header with the
byte count then the raw bytes with no trailing CRLF, and EndStream stops
the loop. -/
def renderResponses : List CommandResponse → List Nat
  | [] => []
  | CommandResponse.Simple s :: rest => asciiBytes s ++ renderResponses rest
  | CommandResponse.Bulk d :: rest =>
    asciiBytes ("$" ++ toString d.length ++ CRLF) ++ d ++ renderResponses rest
  | CommandResponse.EndStream :: _ => []

/-- read_u8: one byte from the stream; none models the io error of a
short read. -/
def readU8 : List Nat → Option (Nat × List Nat)
  | [] => none
  | b :: rest => some (b, rest)

/-- read_u16::<BigEndian>. -/
def readU16BE : List Nat → Option (Nat × List Nat)
  | b0 :: b1 :: rest => some (b0 * 256 + b1, rest)
  | _ => none

/-- read_u32::<BigEndian>. -/
def readU32BE : List Nat → Option (Nat × List Nat)
  | b0 :: b1 :: b2 :: b3 :: rest =>
    some (((b0 * 256 + b1) * 256 + b2) * 256 + b3, rest)
  | _ => none

/-- read_u32::<LittleEndian>. -/
def readU32LE : List Nat → Option (Nat × List Nat)
  | b0 :: b1 :: b2 :: b3 :: rest =>
    some (((b3 * 256 + b2) * 256 + b1) * 256 + b0, rest)
  | _ => none

/-- read_u64::<LittleEndian>. -/
def readU64LE : List Nat → Option (Nat × List Nat)
  | b0 :: b1 :: b2 :: b3 :: b4 :: b5 :: b6 :: b7 :: rest =>
    some (b0 + 256 * (b1 + 256 * (b2 + 256 * (b3 + 256 * (b4 + 256 *
      (b5 + 256 * (b6 + 256 * b7)))))), rest)
  | _ => none

/-- read_length_or_integer from src/rdb_parser.rs lines 12-28, with the
first byte already consumed (a u8, so less than 256).  The top two bits
select the form; the four-byte length form and the 16- and 32-bit
integer encodings all read big-endian in the source. -/
def readLengthOrInteger (firstByte : Nat) (bytes : List Nat) :
    Option (Nat × List Nat) :=
  if firstByte / 64 = 0 then some (firstByte % 64, bytes)
  else if firstByte / 64 = 1 then
    (readU8 bytes).map (fun p => ((firstByte % 64) * 256 + p.1, p.2))
  else if firstByte / 64 = 2 then readU32BE bytes
  else
    if firstByte % 64 = 0 then readU8 bytes
    else if firstByte % 64 = 1 then readU16BE bytes
    else if firstByte % 64 = 2 then readU32BE bytes
    else none

/-- One shift step of the bitwise CRC-64/ECMA-182 computation of the crc
crate used at src/rdb_parser.rs lines 189-190: shift left, discard the
64th bit, xor the polynomial when the discarded bit was set. -/
def crc64Shift (crc : Nat) : Nat :=
  if 2 ^ 63 ≤ crc then Nat.xor (crc * 2 % 2 ^ 64) 0x42F0E1EBA9EA3693
  else crc * 2 % 2 ^ 64

/-- Fold one input byte into the CRC-64/ECMA-182 state. -/
def crc64Byte (crc b : Nat) : Nat :=
  Nat.repeat crc64Shift 8 (Nat.xor crc (b * 2 ^ 56 % 2 ^ 64))

/-- CRC-64/ECMA-182 of a byte sequence: init 0, no reflection, no final
xor, polynomial 0x42F0E1EBA9EA3693. -/
def crc64 (data : List Nat) : Nat := data.foldl crc64Byte 0

/-- Entry inserted by the snapshot decoder.  The source calls a
three-argument ValueEntry::new(value, seconds, milliseconds) that has no
definition under src/value_entry.rs; the fields here record the call
site arguments of src/rdb_parser.rs lines 132-136 and 166. -/
structure RdbEntry where
  value : String
  expirationS : Option Nat
  expirationMs : Option Nat
deriving DecidableEq, Repr

/-- Keyspace populated by the snapshot decoder, same association-list
model as Db. -/
abbrev RdbDb := List (String × RdbEntry)

/-- HashMap::insert for the snapshot keyspace. -/
def rdbInsert (db : RdbDb) (k : String) (v : RdbEntry) : RdbDb :=
  (k, v) :: db.filter (fun p => p.1 ≠ k)

/-- String::from_utf8_lossy on a byte vector, modelled as the code
points of the bytes (exact for the ASCII data the decoder handles). -/
def bytesToString (bs : List Nat) : String := ⟨bs.map Char.ofNat⟩

/-- The error text of an io read hitting the end of input. -/
def UNEXPECTED_EOF : String := "unexpected end of file"

/-- The opcode loop of run (src/rdb_parser.rs lines 61-207).  full is
the entire file (the EOF arm seeks back to the start to hash it), rem
the unread remainder, fuel a bound on the number of iterations (each
iteration consumes at least the marker byte, so the initial remainder
length suffices).  The pair returned is the keyspace as populated so far
and the error of io::Result, none meaning Ok. -/
def rdbLoop (full : List Nat) : Nat → List Nat → RdbDb →
    RdbDb × Option String
  | 0, _, db => (db, some UNEXPECTED_EOF)
  | Nat.succ fuel, rem, db =>
    match rem with
    | [] => (db, none)
    | marker :: rest =>
      if marker = 0xFA then
        match readU8 rest with
        | none => (db, some UNEXPECTED_EOF)
        | some (firstKeyByte, r1) =>
          match readLengthOrInteger firstKeyByte r1 with
          | none => (db, some UNEXPECTED_EOF)
          | some (keyLength, r2) =>
            if keyLength ≤ r2.length then
              let r3 := r2.drop keyLength
              match readU8 r3 with
              | none => (db, some UNEXPECTED_EOF)
              | some (firstValueByte, r4) =>
                if firstValueByte / 64 = 3 then
                  match readLengthOrInteger firstValueByte r4 with
                  | none => (db, some UNEXPECTED_EOF)
                  | some (_, r5) => rdbLoop full fuel r5 db
                else
                  match readLengthOrInteger firstValueByte r4 with
                  | none => (db, some UNEXPECTED_EOF)
                  | some (valueLength, r5) =>
                    if valueLength ≤ r5.length then
                      rdbLoop full fuel (r5.drop valueLength) db
                    else (db, some UNEXPECTED_EOF)
            else (db, some UNEXPECTED_EOF)
      else if marker = 0xFE then
        match readU8 rest with
        | none => (db, some UNEXPECTED_EOF)
        | some (_, r1) => rdbLoop full fuel r1 db
      else if marker = 0xFB then
        match rest with
        | _ :: _ :: r2 => rdbLoop full fuel r2 db
        | _ => (db, some UNEXPECTED_EOF)
      else if marker = 0xFD ∨ marker = 0xFC then
        let expRead := if marker = 0xFD then readU32LE rest else readU64LE rest
        match expRead with
        | none => (db, some UNEXPECTED_EOF)
        | some (expiration, r1) =>
          match r1 with
          | _valueType :: keyLength :: r3 =>
            if keyLength ≤ r3.length then
              let key := bytesToString (r3.take keyLength)
              match r3.drop keyLength with
              | [] => (db, some UNEXPECTED_EOF)
              | valueLength :: r5 =>
                if valueLength ≤ r5.length then
                  let value := bytesToString (r5.take valueLength)
                  let entry : RdbEntry :=
                    { value,
                      expirationS := if marker = 0xFD then some expiration else none,
                      expirationMs := if marker = 0xFC then some expiration else none }
                  rdbLoop full fuel (r5.drop valueLength) (rdbInsert db key entry)
                else (db, some UNEXPECTED_EOF)
            else (db, some UNEXPECTED_EOF)
          | _ => (db, some UNEXPECTED_EOF)
      else if marker = 0x00 then
        match rest with
        | keyLength :: r1 =>
          if keyLength ≤ r1.length then
            let key := bytesToString (r1.take keyLength)
            match r1.drop keyLength with
            | [] => (db, some UNEXPECTED_EOF)
            | valueLength :: r3 =>
              if valueLength ≤ r3.length then
                let value := bytesToString (r3.take valueLength)
                let entry : RdbEntry :=
                  { value, expirationS := none, expirationMs := none }
                rdbLoop full fuel (r3.drop valueLength) (rdbInsert db key entry)
              else (db, some UNEXPECTED_EOF)
          else (db, some UNEXPECTED_EOF)
        | [] => (db, some UNEXPECTED_EOF)
      else if marker = 0xFF then
        if rest.length < 8 then (db, some UNEXPECTED_EOF)
        else
          let readChecksum :=
            match rest.take 8 with
            | [c0, c1, c2, c3, c4, c5, c6, c7] =>
              c7 + 256 * (c6 + 256 * (c5 + 256 * (c4 + 256 * (c3 + 256 *
                (c2 + 256 * (c1 + 256 * c0))))))
            | _ => 0
          let dataToHash := full.take (full.length - 8)
          if crc64 dataToHash = readChecksum then (db, none)
          else (db, some "Invalid checksum")
      else (db, none)

/-- run from src/rdb_parser.rs lines 30-210, restricted to decoding the
bytes of an already-opened snapshot file (the dir and dbfilename lookup
and file opening are connection glue outside this model).  An invalid
magic number only logs and returns Ok with no keys inserted. -/
def rdbRun (full : List Nat) : RdbDb × Option String :=
  match full with
  | m0 :: m1 :: m2 :: m3 :: m4 :: rest =>
    if [m0, m1, m2, m3, m4] = [0x52, 0x45, 0x44, 0x49, 0x53] then
      match rest with
      | _ :: _ :: _ :: _ :: rest2 => rdbLoop full (rest2.length + 1) rest2 []
      | _ => ([], some UNEXPECTED_EOF)
    else ([], none)
  | _ => ([], some UNEXPECTED_EOF)

/-- Modelled from the spec (section 4.2): the RESP encoding of a client
command as an array of bulk strings, used to compare the re-encoded
propagation message with the canonical encoding of the original
command. -/
def respArrayEnc (args : List String) : String :=
  args.foldl
    (fun acc a => acc ++ ("$" ++ toString (strByteLen a) ++ CRLF ++ a ++ CRLF))
    ("*" ++ toString args.length ++ CRLF)

/-- Helper predicate for chunked reads: the commands obtained when every
chunk parses as a complete frame on its own. -/
def parseAll? : List String → Option (List Command)
  | [] => some []
  | c :: cs =>
    match parseMessage c with
    | .ok cmd => (parseAll? cs).map (fun l => cmd :: l)
    | .error _ => none

theorem dataAppend (s t : String) : (s ++ t).data = s.data ++ t.data := rfl

theorem stringDataEq {s t : String} (h : s.data = t.data) : s = t :=
  congrArg String.mk h

theorem dbGet_dbInsert_self (db : Db) (k : String) (v : ValueEntry) :
    dbGet (dbInsert db k v) k = some v := by
  simp [dbGet, dbInsert]

theorem splitLinesAux_append (pre : List Char) :
    ∀ (acc cs2 : List Char),
      splitLinesAux acc (pre ++ '\n' :: cs2) =
        splitLinesAux acc (pre ++ ['\n']) ++ splitLinesAux [] cs2 := by
  induction pre with
  | nil =>
    intro acc cs2
    simp [splitLinesAux]
  | cons c pre ih =>
    intro acc cs2
    simp only [List.cons_append]
    show (if c = '\n' then
        stripCR acc.reverse :: splitLinesAux [] (pre ++ '\n' :: cs2)
      else splitLinesAux (c :: acc) (pre ++ '\n' :: cs2)) =
      (if c = '\n' then
        stripCR acc.reverse :: splitLinesAux [] (pre ++ ['\n'])
      else splitLinesAux (c :: acc) (pre ++ ['\n'])) ++ splitLinesAux [] cs2
    by_cases hc : c = '\n'
    · rw [if_pos hc, if_pos hc, ih]
      rfl
    · rw [if_neg hc, if_neg hc]
      exact ih (c :: acc) cs2

theorem splitLines_append (pre cs2 : List Char) :
    splitLines (pre ++ '\n' :: cs2) =
      splitLines (pre ++ ['\n']) ++ splitLines cs2 :=
  splitLinesAux_append pre [] cs2

theorem readOneBulk_append (ls ext : List (List Char)) (s : String)
    (ls2 : List (List Char)) (h : readOneBulk ls = .ok (s, ls2)) :
    readOneBulk (ls ++ ext) = .ok (s, ls2 ++ ext) := by
  cases ls with
  | nil => simp [readOneBulk] at h
  | cons lenLine ls1 =>
    by_cases hstar : lenLine.head? = some '$'
    · cases hnum : parseUsize? lenLine.tail with
      | none => simp [readOneBulk, hstar, hnum] at h
      | some bulkLen =>
        cases ls1 with
        | nil => simp [readOneBulk, hstar, hnum] at h
        | cons strLine ls3 =>
          by_cases hlen : lineByteLen strLine = bulkLen
          · simp only [readOneBulk, hstar, hnum, hlen, if_pos, if_true,
              List.cons_append] at h ⊢
            simp only [Except.ok.injEq, Prod.mk.injEq] at h
            obtain ⟨h1, h2⟩ := h
            subst h1
            subst h2
            simp
          · simp [readOneBulk, hstar, hnum, hlen] at h
    · simp [readOneBulk, hstar] at h

theorem readBulks_append (n : Nat) :
    ∀ (ls ext : List (List Char)) (args : List String),
      readBulks n ls = .ok args → readBulks n (ls ++ ext) = .ok args := by
  induction n with
  | zero =>
    intro ls ext args h
    simp only [readBulks] at h ⊢
    exact h
  | succ n ih =>
    intro ls ext args h
    cases ho : readOneBulk ls with
    | error e => simp [readBulks, ho] at h
    | ok p =>
      obtain ⟨s, ls2⟩ := p
      simp only [readBulks, ho] at h
      cases hb : readBulks n ls2 with
      | error e => simp [hb] at h
      | ok args2 =>
        simp only [hb, Except.ok.injEq] at h
        have ho2 := readOneBulk_append ls ext s ls2 ho
        have hb2 := ih ls2 ext args2 hb
        simp only [readBulks, ho2, hb2, Except.ok.injEq]
        exact h

theorem parseMessageLines_append (ls ext : List (List Char)) (cmd : Command)
    (h : parseMessageLines ls = .ok cmd) :
    parseMessageLines (ls ++ ext) = .ok cmd := by
  cases ls with
  | nil => simp [parseMessageLines] at h
  | cons firstLine rest =>
    by_cases hstar : firstLine.head? = some '*'
    · cases hnum : parseUsize? firstLine.tail with
      | none => simp [parseMessageLines, hstar, hnum] at h
      | some numArgs =>
        cases hb : readBulks numArgs rest with
        | error e => simp [parseMessageLines, hstar, hnum, hb] at h
        | ok args =>
          have hb2 := readBulks_append numArgs rest ext args hb
          simp only [parseMessageLines, hstar, hnum, hb, hb2, if_pos,
            if_true, List.cons_append] at h ⊢
          exact h
    · simp [parseMessageLines, hstar] at h

/-- C1: executing SET k v with no expiry option and then GET k returns
the bulk-string encoding of exactly v, at any read time; and GET on a
key that is absent, or whose entry is expired at read time, returns the
null bulk string. -/
theorem c1_set_then_get (now now2 t : Nat) (k v k2 : String) (db db2 : Db)
    (h : dbGet db2 k2 = none ∨
      ∃ e, dbGet db2 k2 = some e ∧ e.isExpired t = true) :
    executeGet now2 k (executeSetDb now k v none none db).1 = bulkOf v ∧
    executeGet t k2 db2 = nullBulk := by
  constructor
  · simp [executeSetDb, executeGet, dbGet_dbInsert_self,
      ValueEntry.newRelative, ValueEntry.isExpired, setExpirationMs]
  · rcases h with h | ⟨e, he, hexp⟩
    · simp [executeGet, h]
    · simp [executeGet, he, hexp]

/-- Witness for C1 at concrete inputs: SET key val then GET key gives
the bulk of val, and GET of a key absent from a concrete keyspace gives
the null bulk string. -/
theorem c1_set_then_get_witness :
    (dbGet [("k", ValueEntry.mk "x" (some 3))] "missing" = none ∨
      ∃ e, dbGet [("k", ValueEntry.mk "x" (some 3))] "missing" = some e ∧
        e.isExpired 10 = true) ∧
    (executeGet 99 "key" (executeSetDb 0 "key" "val" none none []).1 =
        bulkOf "val" ∧
      executeGet 10 "missing" [("k", ValueEntry.mk "x" (some 3))] = nullBulk) :=
  ⟨Or.inl (by decide),
   c1_set_then_get 0 99 10 "key" "val" "missing" []
     [("k", ValueEntry.mk "x" (some 3))] (Or.inl (by decide))⟩

/-- C2 counterexample: the byte stream of a single PING frame split at a
frame-interior position yields a different command sequence than the
unsplit stream, so the decode is not invariant under read splits. -/
theorem c2_split_counterexample :
    ("*1\r\n$4\r\n" : String) ++ "PING\r\n" = "*1\r\n$4\r\nPING\r\n" ∧
    processChunks ["*1\r\n$4\r\nPING\r\n"] = [Command.PING] ∧
    processChunks ["*1\r\n$4\r\n", "PING\r\n"] = [] :=
  ⟨rfl, rfl, rfl⟩

/-- C2 amended: the reader parses every read chunk independently and
never buffers a partial frame; when each chunk of the split is itself a
complete frame, the emitted command sequence is exactly the per-chunk
parses in order. -/
theorem c2_complete_chunks (chunks : List String) (cmds : List Command)
    (h : parseAll? chunks = some cmds) : processChunks chunks = cmds := by
  induction chunks generalizing cmds with
  | nil =>
    simp only [parseAll?, Option.some.injEq] at h
    simp [processChunks, ← h]
  | cons c cs ih =>
    cases hp : parseMessage c with
    | error e => simp [parseAll?, hp] at h
    | ok cmd =>
      cases hall : parseAll? cs with
      | none => simp [parseAll?, hp, hall] at h
      | some l =>
        simp only [parseAll?, hp, hall, Option.map, Option.some.injEq] at h
        subst h
        simp only [processChunks, processChunk, List.map_cons, List.flatten_cons, hp]
        have := ih l hall
        simp only [processChunks] at this
        simp [this]

/-- Witness for C2 amended at two concrete complete-frame chunks. -/
theorem c2_complete_chunks_witness :
    parseAll? ["*1\r\n$4\r\nPING\r\n", "*2\r\n$4\r\nECHO\r\n$2\r\nhi\r\n"] =
      some [Command.PING, Command.ECHO "hi"] ∧
    processChunks ["*1\r\n$4\r\nPING\r\n", "*2\r\n$4\r\nECHO\r\n$2\r\nhi\r\n"] =
      [Command.PING, Command.ECHO "hi"] :=
  ⟨rfl, c2_complete_chunks _ _ rfl⟩

/-- C3: of the supported command set, only PING, ECHO, GET, SET and
CONFIG GET are parsed; KEYS, INFO, REPLCONF and PSYNC are rejected by
the parser as unknown commands even though Command::execute implements
all of them, so the executor arms for those commands are unreachable
from the wire. -/
theorem c3_dispatch_gap :
    parseMessage "*2\r\n$4\r\nKEYS\r\n$1\r\n*\r\n" =
      .error "Unknown command: KEYS" ∧
    parseMessage "*2\r\n$4\r\nINFO\r\n$11\r\nreplication\r\n" =
      .error "Unknown command: INFO" ∧
    parseMessage "*3\r\n$8\r\nREPLCONF\r\n$6\r\nGETACK\r\n$1\r\n*\r\n" =
      .error "Unknown command: REPLCONF" ∧
    parseMessage "*3\r\n$5\r\nPSYNC\r\n$1\r\n?\r\n$2\r\n-1\r\n" =
      .error "Unknown command: PSYNC" ∧
    parseMessage "*1\r\n$4\r\nPING\r\n" = .ok Command.PING :=
  ⟨rfl, rfl, rfl, rfl, rfl⟩

/-- C6: a SET executed while the replication role is slave updates the
keyspace locally, answers +OK, and emits no propagation event. -/
theorem c6_replica_never_propagates (now : Nat) (k v : String)
    (ex px : Option Nat) (db : Db) :
    executeSetArm now "slave" k v ex px db =
      { db := dbInsert db k (ValueEntry.newRelative now v (setExpirationMs ex px)),
        responses := [CommandResponse.Simple ("+" ++ "OK" ++ CRLF)],
        propagated := none } :=
  rfl

/-- C4: a PSYNC request whose offset argument parses to -1 or to any
value below the hardcoded primary offset 0 is answered by the simple
string FULLRESYNC line followed by the ten-byte empty snapshot sent as
a dollar-length header and the raw bytes with no trailing CRLF; any
other offset is answered by the CONTINUE simple string. -/
theorem c4_psync_response (replId : String) (args : List String)
    (s : String) (n : Int) (hargs : args.get? 1 = some s)
    (hn : parseI64? s.data = some n) :
    ((n = -1 ∨ n < 0) →
      renderResponses (executePsync replId args) =
        asciiBytes ("+" ++ "FULLRESYNC " ++ replId ++ " " ++ "0" ++ CRLF) ++
          (asciiBytes ("$" ++ "10" ++ CRLF) ++ EMPTY_RDB_FILE)) ∧
    (0 ≤ n →
      renderResponses (executePsync replId args) =
        asciiBytes ("+" ++ "CONTINUE" ++ CRLF)) ∧
    EMPTY_RDB_FILE = asciiBytes "REDIS0009" ++ [0xFF] := by
  have hoff : ((args.get? 1).bind (fun a => parseI64? a.data)).getD (-1) = n := by
    rw [hargs]
    simp [hn]
  refine ⟨?_, ?_, by decide⟩
  · intro hcase
    simp only [executePsync, hoff]
    rw [if_pos hcase]
    simp only [renderResponses, List.append_assoc, List.append_nil]
    rfl
  · intro hcase
    have hneg : ¬((n : Int) = -1 ∨ n < 0) := by omega
    simp only [executePsync, hoff]
    rw [if_neg hneg]
    simp [renderResponses]

/-- Witness for C4 at the concrete handshake request PSYNC ? -1. -/
theorem c4_psync_response_witness :
    (["?", "-1"].get? 1 = some "-1" ∧
      parseI64? ("-1" : String).data = some (-1) ∧
      ((-1 : Int) = -1 ∨ (-1 : Int) < 0)) ∧
    renderResponses (executePsync "replid40" ["?", "-1"]) =
      asciiBytes ("+" ++ "FULLRESYNC " ++ "replid40" ++ " " ++ "0" ++ CRLF) ++
        (asciiBytes ("$" ++ "10" ++ CRLF) ++ EMPTY_RDB_FILE) :=
  ⟨⟨rfl, by decide, by decide⟩,
   (c4_psync_response "replid40" ["?", "-1"] "-1" (-1) rfl (by decide)).1
     (by decide)⟩

/-- C5 counterexample: a SET carrying a PX option parses from its
five-element wire form, but the message propagated to replicas is the
re-encoded three-element form, which differs from the original
encoding received from the client. -/
theorem c5_propagation_counterexample :
    parseMessage "*5\r\n$3\r\nSET\r\n$1\r\nk\r\n$1\r\nv\r\n$2\r\nPX\r\n$3\r\n100\r\n" =
      .ok (Command.SET "k" "v" (some 100) none) ∧
    (executeSetArm 0 "master" "k" "v" none (some 100) []).propagated =
      some "*3\r\n$3\r\nSET\r\n$1\r\nk\r\n$1\r\nv\r\n" ∧
    ("*3\r\n$3\r\nSET\r\n$1\r\nk\r\n$1\r\nv\r\n" : String) ≠
      "*5\r\n$3\r\nSET\r\n$1\r\nk\r\n$1\r\nv\r\n$2\r\nPX\r\n$3\r\n100\r\n" :=
  ⟨rfl, rfl, by decide⟩

/-- C5 amended: on a primary, every successful SET emits a propagation
event carrying the canonical three-element RESP encoding of SET with
the key and value only; PX and EX options are dropped, so the
propagated bytes equal the original client encoding exactly when the
SET carried no options. -/
theorem c5_propagation_reencoded (now : Nat) (k v : String)
    (ex px : Option Nat) (db : Db) :
    (executeSetArm now "master" k v ex px db).propagated =
      some (replicatedSetCommand k v) ∧
    replicatedSetCommand k v = respArrayEnc ["SET", k, v] := by
  constructor
  · rfl
  · apply stringDataEq
    simp only [replicatedSetCommand, respArrayEnc, List.foldl_cons,
      List.foldl_nil, List.length_cons, List.length_nil, dataAppend,
      List.append_assoc]
    rfl

/-- C7 counterexample: the length and integer forms read big-endian,
not little-endian: on the four-byte form with first byte 0x80 and bytes
01 00 00 00 the decoder yields 16777216 where a little-endian read
would yield 1, and similarly for the 16- and 32-bit integer
encodings. -/
theorem c7_endianness_counterexample :
    readLengthOrInteger 0x80 [1, 0, 0, 0] = some (16777216, []) ∧
    readLengthOrInteger 0xC1 [1, 0] = some (256, []) ∧
    readLengthOrInteger 0xC2 [1, 0, 0, 0] = some (16777216, []) ∧
    (16777216 : Nat) ≠ 1 ∧ (256 : Nat) ≠ 1 :=
  ⟨rfl, rfl, rfl, by decide, by decide⟩

/-- C7 amended: a first byte of form 10xxxxxx reads the next four bytes
as a big-endian u32 length, and a first byte of form 11xxxxxx with low
six bits 1 or 2 reads a big-endian u16 or big-endian u32 integer
respectively. -/
theorem c7_big_endian_reads (fb1 fb2 fb3 b0 b1 b2 b3 c0 c1 : Nat)
    (r1 r2 r3 : List Nat) (h1 : fb1 / 64 = 2)
    (h2a : fb2 / 64 = 3) (h2b : fb2 % 64 = 1)
    (h3a : fb3 / 64 = 3) (h3b : fb3 % 64 = 2) :
    readLengthOrInteger fb1 (b0 :: b1 :: b2 :: b3 :: r1) =
      some (((b0 * 256 + b1) * 256 + b2) * 256 + b3, r1) ∧
    readLengthOrInteger fb2 (c0 :: c1 :: r2) = some (c0 * 256 + c1, r2) ∧
    readLengthOrInteger fb3 (b0 :: b1 :: b2 :: b3 :: r3) =
      some (((b0 * 256 + b1) * 256 + b2) * 256 + b3, r3) := by
  refine ⟨?_, ?_, ?_⟩
  · simp [readLengthOrInteger, h1, readU32BE]
  · simp [readLengthOrInteger, h2a, h2b, readU16BE]
  · simp [readLengthOrInteger, h3a, h3b, readU32BE]

/-- Witness for C7 amended at the concrete first bytes 0x80, 0xC1 and
0xC2. -/
theorem c7_big_endian_reads_witness :
    (128 / 64 = 2 ∧ 193 / 64 = 3 ∧ 193 % 64 = 1 ∧
      194 / 64 = 3 ∧ 194 % 64 = 2) ∧
    (readLengthOrInteger 128 [5, 6, 7, 8] =
        some (((5 * 256 + 6) * 256 + 7) * 256 + 8, []) ∧
      readLengthOrInteger 193 [5, 6] = some (5 * 256 + 6, []) ∧
      readLengthOrInteger 194 [5, 6, 7, 8] =
        some (((5 * 256 + 6) * 256 + 7) * 256 + 8, [])) :=
  ⟨⟨by decide, by decide, by decide, by decide, by decide⟩,
   c7_big_endian_reads 128 193 194 5 6 7 8 5 6 [] [] []
     (by decide) (by decide) (by decide) (by decide) (by decide)⟩

/-- C8: decoding the ten-byte empty snapshot inserts zero keys but does
not return success: the EOF arm demands eight checksum bytes that the
empty snapshot does not have, and when checksum bytes are present a
mismatch is reported as an error, contradicting the claim that the
checksum material is accepted unverified. -/
theorem c8_empty_snapshot_rejected :
    rdbRun EMPTY_RDB_FILE = ([], some UNEXPECTED_EOF) ∧
    rdbRun (EMPTY_RDB_FILE ++ [0, 0, 0, 0, 0, 0, 0, 0]) =
      ([], some "Invalid checksum") :=
  ⟨rfl, rfl⟩

/-- C9 counterexample: REPLCONF with first argument GETACK is answered
by the invalid-arguments error, not by the formatted ACK array. -/
theorem c9_getack_counterexample :
    executeReplconf ["GETACK", "*"] =
      some ("-ERR Invalid REPLCONF arguments" ++ CRLF, false) ∧
    ("-ERR Invalid REPLCONF arguments" ++ CRLF : String) ≠
      "*3\r\n$8\r\nREPLCONF\r\n$3\r\nACK\r\n$1\r\n0\r\n" :=
  ⟨rfl, by decide⟩

/-- C9 amended: execute_replconf only recognizes listening-port and
capa; every other first argument, GETACK included, is answered by the
invalid-arguments error and publishes nothing. -/
theorem c9_getack_error (a0 : String) (rest : List String)
    (h1 : a0 ≠ "listening-port") (h2 : a0 ≠ "capa") :
    executeReplconf (a0 :: rest) =
      some ("-ERR Invalid REPLCONF arguments" ++ CRLF, false) := by
  simp [executeReplconf, h1, h2]

/-- Witness for C9 amended at the concrete GETACK request. -/
theorem c9_getack_error_witness :
    (("GETACK" : String) ≠ "listening-port" ∧ ("GETACK" : String) ≠ "capa") ∧
    executeReplconf ["GETACK", "*"] =
      some ("-ERR Invalid REPLCONF arguments" ++ CRLF, false) :=
  ⟨⟨by decide, by decide⟩,
   c9_getack_error "GETACK" ["*"] (by decide) (by decide)⟩

/-- C10: when one read delivers a complete frame followed by any
further bytes, the parser consumes only the bulk strings declared by
the first array header and ignores the rest of the buffer, so the
reader publishes exactly the first command and nothing for the
trailing frames. -/
theorem c10_trailing_frames_discarded (m1 m2 : String) (cmd : Command)
    (h1 : parseMessage m1 = .ok cmd)
    (h2 : ∃ pre, m1.data = pre ++ ['\n']) :
    parseMessage (m1 ++ m2) = .ok cmd ∧
    processChunk (m1 ++ m2) = [cmd] := by
  obtain ⟨pre, hpre⟩ := h2
  have hp : parseMessage (m1 ++ m2) = .ok cmd := by
    unfold parseMessage at h1 ⊢
    have hd : (m1 ++ m2).data = pre ++ '\n' :: m2.data := by
      rw [dataAppend, hpre]
      simp
    rw [hd, splitLines_append, ← hpre]
    exact parseMessageLines_append _ _ cmd h1
  exact ⟨hp, by simp [processChunk, hp]⟩

/-- Witness for C10: a read holding a PING frame followed by a complete
ECHO frame parses as PING alone and publishes only PING. -/
theorem c10_trailing_frames_witness :
    (parseMessage "*1\r\n$4\r\nPING\r\n" = .ok Command.PING ∧
      ∃ pre, ("*1\r\n$4\r\nPING\r\n" : String).data = pre ++ ['\n']) ∧
    (parseMessage ("*1\r\n$4\r\nPING\r\n" ++ "*2\r\n$4\r\nECHO\r\n$2\r\nhi\r\n") =
        .ok Command.PING ∧
      processChunk ("*1\r\n$4\r\nPING\r\n" ++ "*2\r\n$4\r\nECHO\r\n$2\r\nhi\r\n") =
        [Command.PING]) :=
  ⟨⟨rfl, ⟨("*1\r\n$4\r\nPING\r" : String).data, by decide⟩⟩,
   c10_trailing_frames_discarded "*1\r\n$4\r\nPING\r\n"
     "*2\r\n$4\r\nECHO\r\n$2\r\nhi\r\n" Command.PING rfl
     ⟨("*1\r\n$4\r\nPING\r" : String).data, by decide⟩⟩

end Redis

